import Mathlib

/-!
Shallow embedding of the TradingApp live-quote subsystem
(`src/utils/quote_manager.py` and `src/utils/ibkr.py`) and proofs about it.

Numeric ticker fields are Python floats that may be `nan`, the IBKR sentinel
`-1`, or absent (`None` / missing attribute); they are modelled by `RawVal`
with rationals in place of floats.  Python truthiness of a cleaned numeric
(`None` and `0.0` are falsy) is modelled by `truthy`, and the Python `or` on
such values by `pyOr`.
-/

inductive Session where
  | regular
  | pre
  | after
  | closed
  | weekend
  | holiday
deriving DecidableEq, Repr

/-- Sessions satisfying `session in ("closed", "weekend", "holiday")` — the
ones for which the manager requests delayed market data. -/
def Session.isDelayed : Session → Bool
  | .closed => true
  | .weekend => true
  | .holiday => true
  | _ => false

/-- A raw Python numeric field: absent (`None` or missing attribute),
`float("nan")`, or an actual number. -/
inductive RawVal where
  | absent
  | nan
  | num (q : ℚ)
deriving DecidableEq, Repr

/-- Model of `utils/cleaners.py::clean_numeric` restricted to the
numeric/None/NaN inputs that ticker fields take (the string branch is never
exercised by `quote_manager.py`): `None → None`, `nan → None`, `-1 → None`
(the IBKR "no bid/ask" sentinel), otherwise the number itself. -/
def clean_numeric : RawVal → Option ℚ
  | .absent => none
  | .nan => none
  | .num q => if q = -1 then none else some q

/-- Python truthiness of an optional float: `None` and `0.0` are falsy. -/
def truthy : Option ℚ → Bool
  | none => false
  | some q => decide (q ≠ 0)

/-- Python `a or b` on optional floats: `a` if truthy, else `b`. -/
def pyOr (a b : Option ℚ) : Option ℚ :=
  if truthy a then a else b

/-- Python `a or b` on optional objects (ib_insync Greek snapshots are plain
dataclass instances, truthy exactly when not `None`). -/
def pyOrObj {α : Type} (a b : Option α) : Option α :=
  match a with
  | some x => some x
  | none => b

/-- An ib_insync `OptionComputation` snapshot (the Greek fields used by the
quote manager). -/
structure Greeks where
  optPrice : RawVal
  impliedVol : RawVal
  delta : RawVal
  gamma : RawVal
  vega : RawVal
  theta : RawVal
deriving DecidableEq, Repr

/-- An ib_insync contract as built by `QuoteManager._make_contract`:
`Stock(symbol, exchange, currency)` has `secType = "STK"`,
`Option(symbol, expiry, strike, right, exchange, "100", currency)` has
`secType = "OPT"`. -/
structure Contract where
  secType : String
  symbol : String
  expiry : Option String
  strike : Option ℚ
  right : Option String
  exchange : String
  multiplier : Option String
  currency : String
deriving DecidableEq, Repr

/-- Python truthiness of an optional string (`None` and `""` are falsy). -/
def strTruthy : Option String → Bool
  | none => false
  | some s => decide (s ≠ "")

/-- Python truthiness of an optional number used in a bare `if`. -/
def numTruthy : Option ℚ → Bool
  | none => false
  | some q => decide (q ≠ 0)

/-- Model of `QuoteManager._make_contract`: an `Option` contract when
`expiry`, `strike` and `right` are all truthy, else a `Stock`. -/
def make_contract (symbol : String) (expiry : Option String) (strike : Option ℚ)
    (right : Option String) (exchange : String) (currency : String) : Contract :=
  if strTruthy expiry && numTruthy strike && strTruthy right then
    { secType := "OPT", symbol := symbol, expiry := expiry, strike := strike,
      right := right, exchange := exchange, multiplier := some "100",
      currency := currency }
  else
    { secType := "STK", symbol := symbol, expiry := none, strike := none,
      right := none, exchange := exchange, multiplier := none,
      currency := currency }

/-- The raw snapshot carried by an ib_insync `Ticker`: the fields read by
`compute_last` and the `get_quote` poll loop.  `delayed*` fields and the
`lastGreeks`/`bidAskGreeks` attributes are accessed through `getattr` with a
`None` default in the source; absence is `RawVal.absent` / `none` here. -/
structure Ticker where
  contract : Contract
  last : RawVal
  bid : RawVal
  ask : RawVal
  close : RawVal
  delayedLast : RawVal
  delayedBid : RawVal
  delayedAsk : RawVal
  delayedClose : RawVal
  modelGreeks : Option Greeks
  lastGreeks : Option Greeks
  bidAskGreeks : Option Greeks
deriving DecidableEq, Repr

/-- Model of `QuoteManager.compute_last(ticker, session)`: the price-synthesis
fallback ladder.  Each Python early `return` becomes a branch; the `let`
bound fallbacks are written innermost-first so that each step falls through
to the next exactly as the source does. -/
def compute_last (t : Ticker) (session : Session) : Option ℚ :=
  let d_last := clean_numeric t.delayedLast
  let r_last := clean_numeric t.last
  let r_close := clean_numeric t.close
  let d_close := clean_numeric t.delayedClose
  let closeFallback : Option ℚ :=
    let final_fallback := pyOr r_close d_close
    if truthy final_fallback then final_fallback else none
  let greeksFallback : Option ℚ :=
    if t.contract.secType = "OPT" then
      match pyOrObj t.modelGreeks (pyOrObj t.lastGreeks t.bidAskGreeks) with
      | some mg =>
          let opt_price := clean_numeric mg.optPrice
          if truthy opt_price then opt_price else closeFallback
      | none => closeFallback
    else closeFallback
  let midFallback : Option ℚ :=
    let bid := pyOr (clean_numeric t.bid) (clean_numeric t.delayedBid)
    let ask := pyOr (clean_numeric t.ask) (clean_numeric t.delayedAsk)
    match bid, ask with
    | some b, some a =>
        if b ≠ 0 ∧ a ≠ 0 ∧ 0 < b ∧ 0 < a then some ((b + a) / 2)
        else greeksFallback
    | _, _ => greeksFallback
  if session.isDelayed then
    if truthy d_last then d_last
    else if truthy r_last then r_last
    else midFallback
  else
    if truthy r_last then r_last
    else if truthy d_last then d_last
    else midFallback

/-!
## Subscription registry (`QuoteManager` state machine)

Python dict keys are tuples: `subscribe`/`get_quote` key entries by the
5-tuple `(symbol, expiry, strike, right, self.version)` while `cancel`
builds the 4-tuple `(symbol, expiry, strike, right)`.  Tuples of different
lengths are distinct dict keys, so both shapes live in one key type.
-/

inductive DictKey where
  | k4 (symbol : String) (expiry : Option String) (strike : Option ℚ)
      (right : Option String)
  | k5 (symbol : String) (expiry : Option String) (strike : Option ℚ)
      (right : Option String) (version : ℕ)
deriving DecidableEq, Repr

/-- The generation component of a key (`none` for the 4-tuple shape). -/
def DictKey.generation : DictKey → Option ℕ
  | .k4 _ _ _ _ => none
  | .k5 _ _ _ _ v => some v

/-- A live upstream subscription handle (an ib_insync `Ticker` as registry
entry): `id` is the object identity (each `reqMktData` call yields a fresh
one), `sessionTag` is the `_session` attribute stamped on it by `subscribe`
(`getattr(..., "_session", None)` reads it back). -/
structure Feed where
  id : ℕ
  contract : Contract
  genericTicks : String
  sessionTag : Option Session
deriving DecidableEq, Repr

/-- Observable upstream interactions, recorded as a trace. -/
inductive Event where
  | setDataType (mode : ℕ)
  | qualifyAttempt (c : Contract) (timeout : ℚ)
  | openFeed (c : Contract) (genericTicks : String)
  | cancelFeed (f : Feed)
deriving DecidableEq, Repr

/-- The quote dict assembled by `get_quote` (timestamp omitted: wall-clock). -/
structure Quote where
  last : Option ℚ
  bid : Option ℚ
  ask : Option ℚ
  close : Option ℚ
  delta : Option RawVal
  gamma : Option RawVal
  vega : Option RawVal
  theta : Option RawVal
  iv : Option RawVal
deriving DecidableEq, Repr

/-- Mutable state of `QuoteManager`.  Here `connected` models
`self.ib is not None and self.ib.isConnected()`; `nextFeedId` supplies the
identity of the next ticker object `reqMktData` would return. -/
structure QMState where
  connected : Bool
  tickers : List (DictKey × Feed)
  cache : List (DictKey × Quote)
  current_session : Option Session
  version : ℕ
  nextFeedId : ℕ
deriving DecidableEq, Repr

/-- Upstream behaviour the manager reacts to: which contracts the broker
qualifies successfully. -/
structure Env where
  qualifyOk : Contract → Bool

/-- Python `dict` lookup over the association-list model. -/
def lookupKey (l : List (DictKey × Feed)) (k : DictKey) : Option Feed :=
  (l.find? (fun p => p.1 = k)).map Prod.snd

/-- Python `del d[k]` / `d.pop(k, None)`. -/
def eraseKey (l : List (DictKey × Feed)) (k : DictKey) : List (DictKey × Feed) :=
  l.filter (fun p => ¬ p.1 = k)

/-- Python `d[k] = v` (replaces any existing binding). -/
def insertKey (l : List (DictKey × Feed)) (k : DictKey) (f : Feed) :
    List (DictKey × Feed) :=
  eraseKey l k ++ [(k, f)]

/-- Cache lookup (same dict model, `Quote` values). -/
def lookupCache (l : List (DictKey × Quote)) (k : DictKey) : Option Quote :=
  (l.find? (fun p => p.1 = k)).map Prod.snd

/-- The key `subscribe` and `get_quote` build:
`(symbol, expiry, strike, right, self.version)`. -/
def subscribeKey (st : QMState) (symbol : String) (expiry : Option String)
    (strike : Option ℚ) (right : Option String) : DictKey :=
  .k5 symbol expiry strike right st.version

/-- Model of `QuoteManager.safe_qualify(contract, timeout)`: `None` when not
connected, else ask the broker; on success ib_insync returns the qualified
contract (routing venue preserved). -/
def safe_qualify (st : QMState) (env : Env) (c : Contract) : Option Contract :=
  if st.connected then (if env.qualifyOk c then some c else none) else none

/-- The option-venue fallback loop of `subscribe` over
`fallbacks = ["BOX", "CBOE", "AMEX"]`: rebuild the contract on each venue,
qualify with `timeout=2.0`, stop at first success.  Returns the qualified
contract (if any) together with the trace of qualification attempts made
(no upstream call happens when disconnected, mirroring `safe_qualify`). -/
def qualifyFallback (st : QMState) (env : Env) (symbol : String)
    (expiry : Option String) (strike : Option ℚ) (right : Option String) :
    List String → Option Contract × List Event
  | [] => (none, [])
  | exch :: rest =>
    let c := make_contract symbol expiry strike right exch "USD"
    let attempt : List Event := if st.connected then [.qualifyAttempt c 2] else []
    match safe_qualify st env c with
    | some q => (some q, attempt)
    | none =>
        let (r, evs) := qualifyFallback st env symbol expiry strike right rest
        (r, attempt ++ evs)

/-- The qualification phase of `subscribe`: SMART first (default
`timeout=2.0`), then — only when the instrument has an expiry — the
option-venue fallback loop. -/
def qualifyPhase (st : QMState) (env : Env) (symbol : String)
    (expiry : Option String) (strike : Option ℚ) (right : Option String) :
    Option Contract × List Event :=
  let c0 := make_contract symbol expiry strike right "SMART" "USD"
  let attempt0 : List Event := if st.connected then [.qualifyAttempt c0 2] else []
  match safe_qualify st env c0 with
  | some q => (some q, attempt0)
  | none =>
      if strTruthy expiry then
        let fb := qualifyFallback st env symbol expiry strike right
          ["BOX", "CBOE", "AMEX"]
        (fb.1, attempt0 ++ fb.2)
      else (none, attempt0)

/-- The creation half of `QuoteManager.subscribe` (everything after the
registry check): qualify (`qualifyPhase`), then `reqMktData`, stamp
`_session`, and insert under `key`. -/
def createFeed (st : QMState) (env : Env) (symbol : String)
    (expiry : Option String) (strike : Option ℚ) (right : Option String)
    (effSession : Option Session) (key : DictKey) :
    QMState × Option Feed × List Event :=
  let qr := qualifyPhase st env symbol expiry strike right
  match qr.1 with
  | none => (st, none, qr.2)
  | some c =>
      let generic_ticks := if strTruthy expiry then "106" else "165"
      let feed : Feed :=
        { id := st.nextFeedId, contract := c, genericTicks := generic_ticks,
          sessionTag := effSession }
      ({ st with
          tickers := insertKey st.tickers key feed,
          nextFeedId := st.nextFeedId + 1 },
       some feed,
       qr.2 ++ [.openFeed c generic_ticks])

/-- Model of `QuoteManager.subscribe(symbol, expiry, strike, right, session)`.
Returns the new state, the feed handle (`None` when every venue fails), and
the trace of upstream calls in order. -/
def subscribe (st : QMState) (env : Env) (symbol : String)
    (expiry : Option String) (strike : Option ℚ) (right : Option String)
    (session : Option Session) : QMState × Option Feed × List Event :=
  let key := subscribeKey st symbol expiry strike right
  let effSession := match session with
    | some s => some s
    | none => st.current_session
  let mode : ℕ := match effSession with
    | some s => if s.isDelayed then 3 else 1
    | none => 1
  let ev0 : List Event := [.setDataType mode]
  match lookupKey st.tickers key with
  | some old =>
      if old.sessionTag ≠ effSession then
        let st1 := { st with tickers := eraseKey st.tickers key }
        let (st2, f, evs) :=
          createFeed st1 env symbol expiry strike right effSession key
        (st2, f, ev0 ++ [.cancelFeed old] ++ evs)
      else (st, some old, ev0)
  | none =>
      let (st2, f, evs) :=
        createFeed st env symbol expiry strike right effSession key
      (st2, f, ev0 ++ evs)

/-- Model of `QuoteManager.cancel(symbol, expiry, strike, right)`: builds the
4-tuple key `(symbol, expiry, strike, right)` — without the version — and
removes/cancels only on a hit. -/
def cancel (st : QMState) (symbol : String) (expiry : Option String)
    (strike : Option ℚ) (right : Option String) : QMState × List Event :=
  let key := DictKey.k4 symbol expiry strike right
  match lookupKey st.tickers key with
  | some t => ({ st with tickers := eraseKey st.tickers key }, [.cancelFeed t])
  | none => (st, [])

/-- Model of `QuoteManager.cancel_all()`.  Here `cancelFails` says which upstream
cancellations would raise; the `try/except` in the source catches every such
error (logging it) and the `finally` pops the key regardless, so the result
is a plain state, never an exception. -/
def cancel_all (st : QMState) (_cancelFails : Feed → Bool) :
    QMState × List Event :=
  if st.connected = false then
    ({ st with tickers := [] }, [])
  else
    let evs := st.tickers.foldl (fun acc p => acc ++ [Event.cancelFeed p.2]) []
    ({ st with tickers := [] }, evs)

/-- Model of `QuoteManager.reset()`.  Cancels every tracked feed (best effort),
clears tickers, cache and session, drops the connection and reconnects
(`reconnectOk` is the outcome of `connect_ib`), then bumps `version`.
When reconnection raises `ConnectionError` the bump is never reached: the
third component is `some "ConnectionError"` and `version` is unchanged. -/
def reset (st : QMState) (reconnectOk : Bool) :
    QMState × List Event × Option String :=
  let evs := st.tickers.foldl (fun acc p => acc ++ [Event.cancelFeed p.2]) []
  if reconnectOk then
    ({ connected := true, tickers := [], cache := [], current_session := none,
       version := st.version + 1, nextFeedId := st.nextFeedId }, evs, none)
  else
    ({ connected := false, tickers := [], cache := [], current_session := none,
       version := st.version, nextFeedId := st.nextFeedId }, evs,
     some "ConnectionError")

/-- Line 398 of `get_quote`:
`effective_timeout = 5 if session in ("closed", "weekend", "holiday") else timeout`. -/
def effective_timeout (session : Session) (timeout : ℚ) : ℚ :=
  if session.isDelayed then 5 else timeout

/-!
## Connection manager (`utils/ibkr.py::connect_ib`, `ensure_connected`)
-/

/-- What one `ib.connect(host, port, clientId, timeout=3)` call does:
succeeds, returns without being connected (the primitive does not throw on
failure), or raises (caught by the surrounding `except`). -/
inductive ConnectOutcome where
  | ok
  | notConnected
  | raised
deriving DecidableEq, Repr

/-- Upstream connect behaviour, per `(port, clientId)` pair. -/
structure ConnEnv where
  outcome : ℕ → ℕ → ConnectOutcome

/-- Ports `[4001, 7496, 4002, 7497]`, tried in this order. -/
def ports : List ℕ := [4001, 7496, 4002, 7497]

/-- Client ids `range(8, 10)`, i.e. 8 then 9, tried per port. -/
def client_ids : List ℕ := [8, 9]

/-- The full `(port, clientId)` attempt order of the two nested loops. -/
def attemptOrder : List (ℕ × ℕ) :=
  ports.foldr (fun p acc => client_ids.map (fun cid => (p, cid)) ++ acc) []

/-- The nested loop body: run down the attempt list, stop at the first
combination whose connect call reports connected.  Returns the winning
`(port, clientId)` (if any) and the list of connect calls made, in order. -/
def tryConnect (env : ConnEnv) : List (ℕ × ℕ) → Option (ℕ × ℕ) × List (ℕ × ℕ)
  | [] => (none, [])
  | (p, cid) :: rest =>
    if env.outcome p cid = .ok then (some (p, cid), [(p, cid)])
    else
      let (r, as) := tryConnect env rest
      (r, (p, cid) :: as)

/-- Model of `connect_ib()`: the first `(port, clientId)` combination that verifies
`ib.isConnected()` wins; exhausting all combinations raises
`ConnectionError`.  Second component: every connect attempt made. -/
def connect_ib (env : ConnEnv) : Except String (ℕ × ℕ) × List (ℕ × ℕ) :=
  match tryConnect env attemptOrder with
  | (some h, as) => (.ok h, as)
  | (none, as) => (.error "ConnectionError", as)

/-- A cached IB handle as seen by `ensure_connected`: its endpoint and
whether it currently reports connected. -/
structure Handle where
  port : ℕ
  clientId : ℕ
  isConnected : Bool
deriving DecidableEq, Repr

/-- Model of `QuoteManager.ensure_connected()`: reuse a live handle, else call
`connect_ib` (when `self.ib` is `None` or reports disconnected).  Second
component: connect attempts made. -/
def ensure_connected (ib : Option Handle) (env : ConnEnv) :
    Except String Handle × List (ℕ × ℕ) :=
  match ib with
  | some h =>
      if h.isConnected then (.ok h, [])
      else
        match connect_ib env with
        | (.ok (p, cid), as) => (.ok ⟨p, cid, true⟩, as)
        | (.error e, as) => (.error e, as)
  | none =>
      match connect_ib env with
      | (.ok (p, cid), as) => (.ok ⟨p, cid, true⟩, as)
      | (.error e, as) => (.error e, as)

/-!
## Poll loop (`QuoteManager.get_quote`, lines 409–469)

The loop reads the mutating ticker snapshot and the wall clock once per
iteration; both are modelled as streams indexed by the iteration number.
-/

/-- The Greek-source selection at the top of each iteration:
`modelGreeks`, else `lastGreeks`, else `bidAskGreeks`. -/
def pickGreeks (t : Ticker) : Option Greeks :=
  pyOrObj t.modelGreeks (pyOrObj t.lastGreeks t.bidAskGreeks)

/-- Flag `has_greeks`: a Greek source exists and its `impliedVol` is an
actual number (the source tests `math.isnan` on it, with a NaN default). -/
def hasGreeks (t : Ticker) : Bool :=
  match pickGreeks t with
  | some g => match g.impliedVol with
    | .num _ => true
    | _ => false
  | none => false

/-- The loop success condition: a synthesized price exists, and for
options Greeks too (`has_price and (not is_option or has_greeks)`). -/
def fullDataReady (t : Ticker) (session : Session) : Bool :=
  (compute_last t session).isSome &&
    (!(t.contract.secType = "OPT") || hasGreeks t)

/-- The quote dict built after the loop from the final iteration snapshot. -/
def mkQuote (t : Ticker) (session : Session) : Quote :=
  let mg := pickGreeks t
  { last := compute_last t session,
    bid := pyOr (clean_numeric t.bid) (clean_numeric t.delayedBid),
    ask := pyOr (clean_numeric t.ask) (clean_numeric t.delayedAsk),
    close := pyOr (clean_numeric t.close) (clean_numeric t.delayedClose),
    delta := mg.map Greeks.delta,
    gamma := mg.map Greeks.gamma,
    vega := mg.map Greeks.vega,
    theta := mg.map Greeks.theta,
    iv := mg.map Greeks.impliedVol }

/-- One observation stream: `snap n` is the ticker state and `elapsed n`
the value of `time.time() - start` at the top of iteration `n`. -/
structure PollEnv where
  snap : ℕ → Ticker
  elapsed : ℕ → ℚ

/-- The `while True` exit test of iteration `n` (checked in source order:
full data first, then `elapsed >= effective_timeout`). -/
def exitAt (env : PollEnv) (session : Session) (effTimeout : ℚ) (n : ℕ) : Bool :=
  fullDataReady (env.snap n) session || decide (effTimeout ≤ env.elapsed n)

/-- The poll loop, instrumented with fuel: returns the exit iteration.  The
Python loop is unbounded; the theorems show enough fuel always exists, so
the fuel never runs out on the real executions. -/
def pollLoop (env : PollEnv) (session : Session) (effTimeout : ℚ) :
    ℕ → ℕ → Option ℕ
  | 0, _ => none
  | fuel + 1, n =>
      if exitAt env session effTimeout n then some n
      else pollLoop env session effTimeout fuel (n + 1)

/-- The loop followed by the quote construction: what `get_quote` returns
once it has a ticker (always a quote dict, never a timeout error). -/
def pollQuote (env : PollEnv) (session : Session) (effTimeout : ℚ)
    (fuel : ℕ) : Option Quote :=
  (pollLoop env session effTimeout fuel 0).map
    (fun n => mkQuote (env.snap n) session)

/-!
## Concrete fixtures
-/

/-- A plain US stock contract as `subscribe` builds it. -/
def stockContract : Contract := make_contract "AAPL" none none none "SMART" "USD"

/-- A ticker with every price field absent and no Greeks. -/
def blankTicker : Ticker :=
  { contract := stockContract, last := .absent, bid := .absent, ask := .absent,
    close := .absent, delayedLast := .absent, delayedBid := .absent,
    delayedAsk := .absent, delayedClose := .absent, modelGreeks := none,
    lastGreeks := none, bidAskGreeks := none }

/-- Spec vector 1: realLast=150.2, delayedLast=150.0, bid=150.0, ask=150.4. -/
def tickerV1 : Ticker :=
  { blankTicker with
    last := .num (751/5)
    delayedLast := .num 150
    bid := .num 150
    ask := .num (752/5) }

/-- Spec vector 2: realLast absent, delayedLast=5.45. -/
def tickerV2 : Ticker := { blankTicker with delayedLast := .num (109/20) }

/-- Spec vector 3: both lasts absent, bid=10.0, ask=10.2. -/
def tickerV3 : Ticker :=
  { blankTicker with
    bid := .num 10
    ask := .num (51/5) }

/-- Spec vector 4: all price fields absent, close=99.5. -/
def tickerV4 : Ticker := { blankTicker with close := .num (199/2) }

/-- A run where nothing answers on port 4001 and the first client id on
port 7496 connects (the C6 scenario). -/
def envC6 : ConnEnv :=
  ⟨fun p cid => if p = 7496 ∧ cid = 8 then .ok else .raised⟩

/-- The registry entry and state used to exhibit the `cancel` key mismatch
(C9): one live stock feed, subscribed at generation 0. -/
def feedAAPL : Feed :=
  { id := 0, contract := stockContract, genericTicks := "165",
    sessionTag := some .regular }

def stC9 : QMState :=
  { connected := true,
    tickers := [(DictKey.k5 "AAPL" none none none 0, feedAAPL)],
    cache := [], current_session := some .regular, version := 0,
    nextFeedId := 1 }

def Event.isQualify : Event → Bool
  | .qualifyAttempt _ _ => true
  | _ => false

def envAll : Env := ⟨fun _ => true⟩

def envCBOE : Env := ⟨fun c => c.exchange == "CBOE"⟩

def envNone : Env := ⟨fun _ => false⟩

def st0 : QMState :=
  { connected := true, tickers := [], cache := [], current_session := none,
    version := 0, nextFeedId := 0 }

def stW : QMState :=
  { connected := true,
    tickers := [(DictKey.k5 "AAPL" none none none 0, feedAAPL)],
    cache := [], current_session := none, version := 0, nextFeedId := 1 }

def pollEnvW : PollEnv := ⟨fun _ => blankTicker, fun n => n⟩

/-!
## Helper lemmas
-/

lemma truthy_none : truthy none = false := rfl

lemma pyOr_of_truthy {a b : Option ℚ} (h : truthy a = true) : pyOr a b = a := by
  simp [pyOr, h]

lemma pyOr_of_falsy {a b : Option ℚ} (h : truthy a = false) : pyOr a b = b := by
  simp [pyOr, h]

/-- C1: `compute_last` is a pure function of the snapshot and session that
follows the fallback ladder — delayed sessions prefer delayed-last then
real-time-last, other sessions the reverse; then the bid/ask midpoint when
both sides are present and positive; then, for options only, the
model-implied price from the model/last-trade/bid-ask Greek snapshot; then
real-time close, else delayed close; else absent — and on the specified fixed
vectors it yields 150.2, 5.45, 10.1, 99.5 and absent respectively. -/
theorem compute_last_fallback_ladder :
    (∀ (t : Ticker) (s : Session), s.isDelayed = true →
      truthy (clean_numeric t.delayedLast) = true →
      compute_last t s = clean_numeric t.delayedLast) ∧
    (∀ (t : Ticker) (s : Session), s.isDelayed = true →
      truthy (clean_numeric t.delayedLast) = false →
      truthy (clean_numeric t.last) = true →
      compute_last t s = clean_numeric t.last) ∧
    (∀ (t : Ticker) (s : Session), s.isDelayed = false →
      truthy (clean_numeric t.last) = true →
      compute_last t s = clean_numeric t.last) ∧
    (∀ (t : Ticker) (s : Session), s.isDelayed = false →
      truthy (clean_numeric t.last) = false →
      truthy (clean_numeric t.delayedLast) = true →
      compute_last t s = clean_numeric t.delayedLast) ∧
    (∀ (t : Ticker) (s : Session) (b a : ℚ),
      truthy (clean_numeric t.delayedLast) = false →
      truthy (clean_numeric t.last) = false →
      pyOr (clean_numeric t.bid) (clean_numeric t.delayedBid) = some b →
      pyOr (clean_numeric t.ask) (clean_numeric t.delayedAsk) = some a →
      0 < b → 0 < a →
      compute_last t s = some ((b + a) / 2)) ∧
    (∀ (t : Ticker) (s : Session) (mg : Greeks),
      t.contract.secType = "OPT" →
      clean_numeric t.delayedLast = none →
      clean_numeric t.last = none →
      clean_numeric t.bid = none →
      clean_numeric t.delayedBid = none →
      pyOrObj t.modelGreeks (pyOrObj t.lastGreeks t.bidAskGreeks) = some mg →
      truthy (clean_numeric mg.optPrice) = true →
      compute_last t s = clean_numeric mg.optPrice) ∧
    (∀ (t : Ticker) (s : Session),
      t.contract.secType ≠ "OPT" →
      clean_numeric t.delayedLast = none →
      clean_numeric t.last = none →
      clean_numeric t.bid = none →
      clean_numeric t.delayedBid = none →
      truthy (clean_numeric t.close) = true →
      compute_last t s = clean_numeric t.close) ∧
    (∀ (t : Ticker) (s : Session),
      t.contract.secType ≠ "OPT" →
      clean_numeric t.delayedLast = none →
      clean_numeric t.last = none →
      clean_numeric t.bid = none →
      clean_numeric t.delayedBid = none →
      clean_numeric t.close = none →
      truthy (clean_numeric t.delayedClose) = true →
      compute_last t s = clean_numeric t.delayedClose) ∧
    compute_last tickerV1 .regular = some (751/5) ∧
    compute_last tickerV2 .closed = some (109/20) ∧
    compute_last tickerV3 .regular = some (101/10) ∧
    compute_last tickerV4 .regular = some (199/2) ∧
    compute_last blankTicker .regular = none ∧
    compute_last blankTicker .closed = none := by
  refine ⟨?_, ?_, ?_, ?_, ?_, ?_, ?_, ?_, ?_, ?_, ?_, ?_, ?_, ?_⟩
  · intro t s h1 h2
    unfold compute_last
    simp [h1, h2]
  · intro t s h1 h2 h3
    unfold compute_last
    simp [h1, h2, h3]
  · intro t s h1 h2
    unfold compute_last
    simp [h1, h2]
  · intro t s h1 h2 h3
    unfold compute_last
    simp [h1, h2, h3]
  · intro t s b a hd hr hb ha h0b h0a
    unfold compute_last
    cases hs : s.isDelayed <;>
      simp [hd, hr, hb, ha, h0b, h0a, h0b.ne', h0a.ne']
  · intro t s mg hopt hd hr hb hdb hmg hp
    unfold compute_last
    cases hs : s.isDelayed <;>
      simp [hd, hr, hb, hdb, hmg, hp, hopt, truthy_none, pyOr_of_falsy]
  · intro t s hopt hd hr hb hdb hc
    unfold compute_last
    cases hs : s.isDelayed <;>
      simp [hd, hr, hb, hdb, hc, hopt, truthy_none, pyOr_of_falsy,
        pyOr_of_truthy]
  · intro t s hopt hd hr hb hdb hc hdc
    unfold compute_last
    cases hs : s.isDelayed <;>
      simp [hd, hr, hb, hdb, hc, hdc, hopt, truthy_none, pyOr_of_falsy,
        pyOr_of_truthy]
  · norm_num [compute_last, tickerV1, blankTicker, stockContract, make_contract,
      clean_numeric, truthy, pyOr, pyOrObj, Session.isDelayed]
  · norm_num [compute_last, tickerV2, blankTicker, stockContract, make_contract,
      clean_numeric, truthy, pyOr, pyOrObj, Session.isDelayed]
  · norm_num [compute_last, tickerV3, blankTicker, stockContract, make_contract,
      clean_numeric, truthy, pyOr, pyOrObj, Session.isDelayed]
  · norm_num [compute_last, tickerV4, blankTicker, stockContract, make_contract,
      clean_numeric, truthy, pyOr, pyOrObj, Session.isDelayed]
  · norm_num [compute_last, blankTicker, stockContract, make_contract,
      clean_numeric, truthy, pyOr, pyOrObj, Session.isDelayed]
  · norm_num [compute_last, blankTicker, stockContract, make_contract,
      clean_numeric, truthy, pyOr, pyOrObj, Session.isDelayed]

/-- Witness for C1: the delayed-session branch applied to spec vector 2. -/
theorem compute_last_fallback_ladder_witness :
    truthy (clean_numeric tickerV2.delayedLast) = true ∧
    compute_last tickerV2 .closed = clean_numeric tickerV2.delayedLast := by
  constructor
  · norm_num [tickerV2, blankTicker, clean_numeric, truthy]
  · exact compute_last_fallback_ladder.1 tickerV2 .closed rfl
      (by norm_num [tickerV2, blankTicker, clean_numeric, truthy])

/-- C10: for every registry state and every pattern of upstream
cancellation failures — including a disconnected or absent connection —
`cancel_all` returns normally (it is a total function of the state; the
source catches each per-feed exception and clears in a `finally`), and
afterwards the local feed map is empty while the rest of the state is
untouched. -/
theorem cancel_all_clears_feed_map :
    ∀ (st : QMState) (cancelFails : Feed → Bool),
      (cancel_all st cancelFails).1.tickers = [] ∧
      (cancel_all st cancelFails).1.connected = st.connected ∧
      (cancel_all st cancelFails).1.cache = st.cache ∧
      (cancel_all st cancelFails).1.version = st.version := by
  intro st f
  unfold cancel_all
  by_cases h : st.connected = false <;> simp [h]

/-- C4: a completed `reset` increments the generation counter by exactly 1,
leaves no feed or cache entry at any key (in particular none keyed at a
generation below the new counter), and every subsequent subscription/cache
key embeds the new generation. -/
theorem reset_bumps_generation (st : QMState) :
    (reset st true).1.version = st.version + 1 ∧
    (reset st true).2.2 = none ∧
    (reset st true).1.tickers = [] ∧
    (reset st true).1.cache = [] ∧
    (∀ k : DictKey, lookupKey (reset st true).1.tickers k = none) ∧
    (∀ k : DictKey, lookupCache (reset st true).1.cache k = none) ∧
    (∀ (symbol : String) (expiry : Option String) (strike : Option ℚ)
        (right : Option String),
        subscribeKey (reset st true).1 symbol expiry strike right =
          DictKey.k5 symbol expiry strike right (st.version + 1)) := by
  unfold reset subscribeKey lookupKey lookupCache
  simp

lemma find?_eraseKey (l : List (DictKey × Feed)) (k : DictKey) :
    (eraseKey l k).find? (fun p => p.1 = k) = none := by
  rw [List.find?_eq_none]
  intro p hp
  simp only [eraseKey, List.mem_filter] at hp
  simpa using hp.2

lemma lookup_insertKey (l : List (DictKey × Feed)) (k : DictKey) (f : Feed) :
    lookupKey (insertKey l k f) k = some f := by
  unfold lookupKey insertKey
  rw [List.find?_append, find?_eraseKey]
  simp

lemma createFeed_post (st : QMState) (env : Env) (symbol : String)
    (expiry : Option String) (strike : Option ℚ) (right : Option String)
    (effSession : Option Session) (key : DictKey) (st2 : QMState) (f : Feed)
    (evs : List Event)
    (h : createFeed st env symbol expiry strike right effSession key =
      (st2, some f, evs)) :
    st2.tickers = insertKey st.tickers key f ∧ f.sessionTag = effSession ∧
    st2.version = st.version ∧ st2.current_session = st.current_session ∧
    st2.connected = st.connected := by
  unfold createFeed at h
  dsimp only at h
  cases hq : (qualifyPhase st env symbol expiry strike right).1 with
  | none =>
      rw [hq] at h
      simp at h
  | some c =>
      rw [hq] at h
      simp only [Prod.mk.injEq, Option.some.injEq] at h
      obtain ⟨hst, hf, -⟩ := h
      subst hst
      subst hf
      simp [insertKey]

lemma make_contract_exchange (symbol : String) (expiry : Option String)
    (strike : Option ℚ) (right : Option String) (ex cur : String) :
    (make_contract symbol expiry strike right ex cur).exchange = ex := by
  unfold make_contract
  split <;> rfl

lemma subscribe_some_post (st st1 : QMState) (env : Env) (symbol : String)
    (expiry : Option String) (strike : Option ℚ) (right : Option String)
    (s : Session) (f : Feed) (evs : List Event)
    (h : subscribe st env symbol expiry strike right (some s) =
      (st1, some f, evs)) :
    st1.version = st.version ∧
    lookupKey st1.tickers (DictKey.k5 symbol expiry strike right st.version) =
      some f ∧
    f.sessionTag = some s := by
  unfold subscribe at h
  dsimp only at h
  cases hl : lookupKey st.tickers (subscribeKey st symbol expiry strike right) with
  | some old =>
      rw [hl] at h
      dsimp only at h
      by_cases htag : old.sessionTag ≠ some s
      · rw [if_pos htag] at h
        rcases hcf : createFeed { st with
            tickers := eraseKey st.tickers
              (subscribeKey st symbol expiry strike right) }
            env symbol expiry strike right (some s)
            (subscribeKey st symbol expiry strike right) with ⟨st2, f2, ev2⟩
        rw [hcf] at h
        simp only [Prod.mk.injEq] at h
        obtain ⟨h1, h2, -⟩ := h
        subst h1
        cases f2 with
        | none => exact absurd h2.symm (by simp)
        | some f2v =>
            obtain rfl : f2v = f := by simpa using h2
            obtain ⟨ht, hsess, hver, -, -⟩ := createFeed_post _ _ _ _ _ _ _ _
              _ _ _ hcf
            refine ⟨by simpa using hver, ?_, hsess⟩
            rw [ht]
            have : DictKey.k5 symbol expiry strike right st.version =
                subscribeKey st symbol expiry strike right := rfl
            rw [this]
            exact lookup_insertKey _ _ _
      · rw [if_neg htag] at h
        push_neg at htag
        simp only [Prod.mk.injEq, Option.some.injEq] at h
        obtain ⟨h1, h2, -⟩ := h
        subst h1
        subst h2
        exact ⟨rfl, hl, htag⟩
  | none =>
      rw [hl] at h
      dsimp only at h
      rcases hcf : createFeed st env symbol expiry strike right (some s)
        (subscribeKey st symbol expiry strike right) with ⟨st2, f2, ev2⟩
      rw [hcf] at h
      simp only [Prod.mk.injEq] at h
      obtain ⟨h1, h2, -⟩ := h
      subst h1
      cases f2 with
      | none => exact absurd h2.symm (by simp)
      | some f2v =>
          obtain rfl : f2v = f := by simpa using h2
          obtain ⟨ht, hsess, hver, -, -⟩ := createFeed_post _ _ _ _ _ _ _ _
            _ _ _ hcf
          refine ⟨hver, ?_, hsess⟩
          rw [ht]
          exact lookup_insertKey _ _ _

/-- C2: two `subscribe` calls with the same instrument and session within
one generation return the identical Feed handle — after any successful call,
a second call finds the live entry, sees its stored session tag match,
returns it unchanged with an unchanged registry, and performs no
qualification and opens no second upstream feed (its whole upstream trace is
the one `reqMarketDataType` call). -/
theorem subscribe_dedup (st st1 : QMState) (env : Env) (symbol : String)
    (expiry : Option String) (strike : Option ℚ) (right : Option String)
    (s : Session) (f : Feed) (evs : List Event)
    (h : subscribe st env symbol expiry strike right (some s) =
      (st1, some f, evs)) :
    subscribe st1 env symbol expiry strike right (some s) =
      (st1, some f, [Event.setDataType (if s.isDelayed then 3 else 1)]) := by
  obtain ⟨hver, hlook, htag⟩ := subscribe_some_post st st1 env symbol expiry
    strike right s f evs h
  unfold subscribe
  dsimp only
  have hkey : subscribeKey st1 symbol expiry strike right =
      DictKey.k5 symbol expiry strike right st.version := by
    unfold subscribeKey
    rw [hver]
  rw [hkey, hlook]
  dsimp only
  simp [htag]

/-- Witness for C2: a concrete first subscription on an empty registry,
then the dedup second call. -/
theorem subscribe_dedup_witness :
    subscribe st0 envAll "AAPL" none none none (some .regular) =
      (stW, some feedAAPL,
        [Event.setDataType 1, Event.qualifyAttempt stockContract 2,
          Event.openFeed stockContract "165"]) ∧
    subscribe stW envAll "AAPL" none none none (some .regular) =
      (stW, some feedAAPL, [Event.setDataType 1]) := by
  constructor
  · rfl
  · have h := subscribe_dedup st0 stW envAll "AAPL" none none none .regular
      feedAAPL _ (by rfl)
    simpa [Session.isDelayed] using h

/-- C3: when a live entry exists whose stored session tag differs from the
requested session, `subscribe` cancels the stale upstream feed, removes the
entry, and installs a fresh feed (new ticker identity) tagged with the new
session under the same key. -/
theorem subscribe_session_change (st : QMState) (env : Env) (symbol : String)
    (expiry : Option String) (strike : Option ℚ) (right : Option String)
    (s : Session) (old : Feed)
    (hlook : lookupKey st.tickers (subscribeKey st symbol expiry strike right) =
      some old)
    (htag : old.sessionTag ≠ some s)
    (hconn : st.connected = true)
    (hqual : env.qualifyOk
      (make_contract symbol expiry strike right "SMART" "USD") = true) :
    ∃ f : Feed,
      (subscribe st env symbol expiry strike right (some s)).2.1 = some f ∧
      f.sessionTag = some s ∧
      f.id = st.nextFeedId ∧
      f ≠ old ∧
      lookupKey (subscribe st env symbol expiry strike right (some s)).1.tickers
        (subscribeKey st symbol expiry strike right) = some f ∧
      Event.cancelFeed old ∈
        (subscribe st env symbol expiry strike right (some s)).2.2 := by
  have hcf : createFeed { st with tickers := eraseKey st.tickers (subscribeKey st symbol expiry strike right) } env symbol expiry strike right (some s) (subscribeKey st symbol expiry strike right) =
      ({ st with tickers := insertKey (eraseKey st.tickers (subscribeKey st symbol expiry strike right)) (subscribeKey st symbol expiry strike right) { id := st.nextFeedId, contract := make_contract symbol expiry strike right "SMART" "USD", genericTicks := if strTruthy expiry then "106" else "165", sessionTag := some s }, nextFeedId := st.nextFeedId + 1 },
        some { id := st.nextFeedId, contract := make_contract symbol expiry strike right "SMART" "USD", genericTicks := if strTruthy expiry then "106" else "165", sessionTag := some s },
        [Event.qualifyAttempt (make_contract symbol expiry strike right "SMART" "USD") 2,
          Event.openFeed (make_contract symbol expiry strike right "SMART" "USD") (if strTruthy expiry then "106" else "165")]) := by
    unfold createFeed qualifyPhase safe_qualify
    dsimp only
    simp [hconn, hqual]
  refine ⟨{ id := st.nextFeedId, contract := make_contract symbol expiry strike right "SMART" "USD", genericTicks := if strTruthy expiry then "106" else "165", sessionTag := some s }, ?_, rfl, rfl, ?_, ?_, ?_⟩
  · unfold subscribe
    dsimp only
    rw [hlook]
    dsimp only
    rw [if_pos htag, hcf]
  · intro h
    exact htag (by rw [← h])
  · unfold subscribe
    dsimp only
    rw [hlook]
    dsimp only
    rw [if_pos htag, hcf]
    dsimp only
    exact lookup_insertKey _ _ _
  · unfold subscribe
    dsimp only
    rw [hlook]
    dsimp only
    rw [if_pos htag, hcf]
    simp

/-- Witness for C3: the registry holds a feed tagged `regular`; a `closed`
request replaces it. -/
theorem subscribe_session_change_witness :
    (lookupKey stW.tickers (subscribeKey stW "AAPL" none none none) =
        some feedAAPL ∧
      feedAAPL.sessionTag ≠ some Session.closed ∧
      stW.connected = true ∧
      envAll.qualifyOk (make_contract "AAPL" none none none "SMART" "USD") =
        true) ∧
    (∃ f : Feed,
      (subscribe stW envAll "AAPL" none none none (some .closed)).2.1 =
        some f ∧
      f.sessionTag = some .closed ∧
      f.id = stW.nextFeedId ∧
      f ≠ feedAAPL ∧
      lookupKey
        (subscribe stW envAll "AAPL" none none none (some .closed)).1.tickers
        (subscribeKey stW "AAPL" none none none) = some f ∧
      Event.cancelFeed feedAAPL ∈
        (subscribe stW envAll "AAPL" none none none (some .closed)).2.2) := by
  refine ⟨⟨rfl, by simp [feedAAPL], rfl, rfl⟩, ?_⟩
  exact subscribe_session_change stW envAll "AAPL" none none none .closed
    feedAAPL rfl (by simp [feedAAPL]) rfl rfl

/-- C5: for an option instrument, qualification tries SMART first and then
the fallback venues in order, stopping at the first success; when SMART and
BOX fail and CBOE succeeds, exactly three qualification attempts occur and
the feed is opened on the CBOE-routed contract; when every venue fails,
`subscribe` returns none and the state — registry and connection — is
unchanged (total function: nothing propagates). -/
theorem subscribe_option_venue_fallback (st : QMState) (env1 env2 : Env)
    (symbol : String) (expiry : Option String) (strike : Option ℚ)
    (right : Option String) (s : Session)
    (hconn : st.connected = true)
    (hmiss : lookupKey st.tickers (subscribeKey st symbol expiry strike right) =
      none)
    (hexp : strTruthy expiry = true)
    (hS : env1.qualifyOk (make_contract symbol expiry strike right "SMART" "USD") = false)
    (hB : env1.qualifyOk (make_contract symbol expiry strike right "BOX" "USD") = false)
    (hC : env1.qualifyOk (make_contract symbol expiry strike right "CBOE" "USD") = true)
    (hS2 : env2.qualifyOk (make_contract symbol expiry strike right "SMART" "USD") = false)
    (hB2 : env2.qualifyOk (make_contract symbol expiry strike right "BOX" "USD") = false)
    (hC2 : env2.qualifyOk (make_contract symbol expiry strike right "CBOE" "USD") = false)
    (hA2 : env2.qualifyOk (make_contract symbol expiry strike right "AMEX" "USD") = false) :
    (∃ f : Feed,
      (subscribe st env1 symbol expiry strike right (some s)).2.1 = some f ∧
      f.contract = make_contract symbol expiry strike right "CBOE" "USD" ∧
      f.contract.exchange = "CBOE" ∧
      List.filter Event.isQualify
          (subscribe st env1 symbol expiry strike right (some s)).2.2 =
        [Event.qualifyAttempt (make_contract symbol expiry strike right "SMART" "USD") 2,
          Event.qualifyAttempt (make_contract symbol expiry strike right "BOX" "USD") 2,
          Event.qualifyAttempt (make_contract symbol expiry strike right "CBOE" "USD") 2]) ∧
    ((subscribe st env2 symbol expiry strike right (some s)).2.1 = none ∧
      (subscribe st env2 symbol expiry strike right (some s)).1 = st) := by
  constructor
  · have hqp : qualifyPhase st env1 symbol expiry strike right =
        (some (make_contract symbol expiry strike right "CBOE" "USD"),
          [Event.qualifyAttempt (make_contract symbol expiry strike right "SMART" "USD") 2,
            Event.qualifyAttempt (make_contract symbol expiry strike right "BOX" "USD") 2,
            Event.qualifyAttempt (make_contract symbol expiry strike right "CBOE" "USD") 2]) := by
      simp [qualifyPhase, qualifyFallback, safe_qualify, hconn, hexp, hS, hB,
        hC]
    refine ⟨{ id := st.nextFeedId, contract := make_contract symbol expiry strike right "CBOE" "USD", genericTicks := "106", sessionTag := some s }, ?_, rfl, make_contract_exchange _ _ _ _ _ _, ?_⟩
    · unfold subscribe
      dsimp only
      rw [hmiss]
      dsimp only
      unfold createFeed
      rw [hqp]
      dsimp only
      rw [if_pos hexp]
    · unfold subscribe
      dsimp only
      rw [hmiss]
      dsimp only
      unfold createFeed
      rw [hqp]
      dsimp only
      rw [if_pos hexp]
      simp [Event.isQualify]
  · have hqp2 : qualifyPhase st env2 symbol expiry strike right =
        (none,
          [Event.qualifyAttempt (make_contract symbol expiry strike right "SMART" "USD") 2,
            Event.qualifyAttempt (make_contract symbol expiry strike right "BOX" "USD") 2,
            Event.qualifyAttempt (make_contract symbol expiry strike right "CBOE" "USD") 2,
            Event.qualifyAttempt (make_contract symbol expiry strike right "AMEX" "USD") 2]) := by
      simp [qualifyPhase, qualifyFallback, safe_qualify, hconn, hexp, hS2,
        hB2, hC2, hA2]
    constructor
    · unfold subscribe
      dsimp only
      rw [hmiss]
      dsimp only
      unfold createFeed
      rw [hqp2]
    · unfold subscribe
      dsimp only
      rw [hmiss]
      dsimp only
      unfold createFeed
      rw [hqp2]

/-- Witness for C5: a concrete option whose broker qualifies only
CBOE-routed contracts, and one that qualifies none. -/
theorem subscribe_option_venue_fallback_witness :
    (strTruthy (some "20250620") = true ∧
      envCBOE.qualifyOk
        (make_contract "TSLA" (some "20250620") (some 100) (some "C") "SMART"
          "USD") = false ∧
      envCBOE.qualifyOk
        (make_contract "TSLA" (some "20250620") (some 100) (some "C") "CBOE"
          "USD") = true) ∧
    ((∃ f : Feed,
      (subscribe st0 envCBOE "TSLA" (some "20250620") (some 100) (some "C")
          (some .regular)).2.1 = some f ∧
      f.contract =
        make_contract "TSLA" (some "20250620") (some 100) (some "C") "CBOE"
          "USD" ∧
      f.contract.exchange = "CBOE" ∧
      List.filter Event.isQualify
          (subscribe st0 envCBOE "TSLA" (some "20250620") (some 100) (some "C")
            (some .regular)).2.2 =
        [Event.qualifyAttempt
            (make_contract "TSLA" (some "20250620") (some 100) (some "C")
              "SMART" "USD") 2,
          Event.qualifyAttempt
            (make_contract "TSLA" (some "20250620") (some 100) (some "C")
              "BOX" "USD") 2,
          Event.qualifyAttempt
            (make_contract "TSLA" (some "20250620") (some 100) (some "C")
              "CBOE" "USD") 2]) ∧
    ((subscribe st0 envNone "TSLA" (some "20250620") (some 100) (some "C")
        (some .regular)).2.1 = none ∧
      (subscribe st0 envNone "TSLA" (some "20250620") (some 100) (some "C")
        (some .regular)).1 = st0)) := by
  refine ⟨⟨by decide, ?_, ?_⟩, ?_⟩
  · simp [envCBOE, make_contract_exchange]
  · simp [envCBOE, make_contract_exchange]
  · exact subscribe_option_venue_fallback st0 envCBOE envNone "TSLA"
      (some "20250620") (some 100) (some "C") .regular rfl rfl (by decide)
      (by simp [envCBOE, make_contract_exchange])
      (by simp [envCBOE, make_contract_exchange])
      (by simp [envCBOE, make_contract_exchange])
      rfl rfl rfl rfl

/-- C6 counterexample: in the scenario the claim describes (first endpoint
fails within its timeouts, second endpoint succeeds), the handle is indeed
bound to port 7496, but THREE connect calls occur — client ids 8 and 9 at
4001, then client id 8 at 7496 — not exactly two. -/
theorem connect_attempts_not_two :
    (ensure_connected none envC6).1 = .ok ⟨7496, 8, true⟩ ∧
    (ensure_connected none envC6).2 = [(4001, 8), (4001, 9), (7496, 8)] ∧
    (ensure_connected none envC6).2.length ≠ 2 := by
  exact ⟨rfl, rfl, by decide⟩

/-- C6 amended: connect attempts iterate ports `[4001, 7496, 4002, 7497]`,
with client ids 8 then 9 per port; if both client ids at 4001 fail and the
first attempt at 7496 succeeds, `ensure_connected` returns a handle bound
to `(7496, 8)` and exactly three connect attempts are made (two at 4001,
one at 7496). -/
theorem connect_fallback_order (env : ConnEnv)
    (h8 : env.outcome 4001 8 ≠ .ok) (h9 : env.outcome 4001 9 ≠ .ok)
    (hok : env.outcome 7496 8 = .ok) :
    attemptOrder = [(4001, 8), (4001, 9), (7496, 8), (7496, 9),
      (4002, 8), (4002, 9), (7497, 8), (7497, 9)] ∧
    (ensure_connected none env).1 = .ok ⟨7496, 8, true⟩ ∧
    (ensure_connected none env).2 = [(4001, 8), (4001, 9), (7496, 8)] := by
  have htry : tryConnect env attemptOrder =
      (some (7496, 8), [(4001, 8), (4001, 9), (7496, 8)]) := by
    show tryConnect env
      [(4001, 8), (4001, 9), (7496, 8), (7496, 9),
        (4002, 8), (4002, 9), (7497, 8), (7497, 9)] = _
    rw [tryConnect, if_neg h8, tryConnect, if_neg h9, tryConnect, if_pos hok]
  have hconn : connect_ib env =
      (.ok (7496, 8), [(4001, 8), (4001, 9), (7496, 8)]) := by
    unfold connect_ib
    rw [htry]
  refine ⟨rfl, ?_, ?_⟩ <;>
    · unfold ensure_connected
      rw [hconn]

/-- Witness for the amended C6 theorem: the concrete run `envC6`. -/
theorem connect_fallback_order_witness :
    (envC6.outcome 4001 8 ≠ .ok ∧ envC6.outcome 4001 9 ≠ .ok ∧
      envC6.outcome 7496 8 = .ok) ∧
    ((ensure_connected none envC6).1 = .ok ⟨7496, 8, true⟩ ∧
      (ensure_connected none envC6).2 = [(4001, 8), (4001, 9), (7496, 8)]) := by
  refine ⟨⟨by decide, by decide, by decide⟩, ?_⟩
  have h := connect_fallback_order envC6 (by decide) (by decide) (by decide)
  exact ⟨h.2.1, h.2.2⟩

lemma elapsed_lower_bound (env : PollEnv) (dlt : ℚ)
    (h0 : env.elapsed 0 = 0)
    (hmono : ∀ n, env.elapsed n + dlt ≤ env.elapsed (n + 1)) :
    ∀ n : ℕ, (n : ℚ) * dlt ≤ env.elapsed n := by
  intro n
  induction n with
  | zero => simp [h0]
  | succ k ih =>
      have hk := hmono k
      push_cast
      nlinarith

lemma pollLoop_finds (env : PollEnv) (s : Session) (T : ℚ) :
    ∀ (fuel n k : ℕ), n ≤ k → k < n + fuel → exitAt env s T k = true →
      ∃ m, pollLoop env s T fuel n = some m ∧ n ≤ m ∧ m ≤ k ∧
        exitAt env s T m = true ∧
        ∀ j, n ≤ j → j < m → exitAt env s T j = false := by
  intro fuel
  induction fuel with
  | zero =>
      intro n k h1 h2 h3
      omega
  | succ fl ih =>
      intro n k h1 h2 h3
      by_cases hc : exitAt env s T n = true
      · exact ⟨n, by simp [pollLoop, hc], le_refl n, h1, hc, by omega⟩
      · have hkn : n + 1 ≤ k := by
          rcases Nat.eq_or_lt_of_le h1 with heq | hlt
          · exact absurd (heq ▸ h3) hc
          · omega
        obtain ⟨m, hm, hnm, hmk, hex, hmin⟩ := ih (n + 1) k hkn (by omega) h3
        refine ⟨m, ?_, by omega, hmk, hex, ?_⟩
        · simpa [pollLoop, hc] using hm
        · intro j hj hjm
          rcases Nat.eq_or_lt_of_le hj with heq | hlt
          · simpa [← heq] using eq_false_of_ne_true hc
          · exact hmin j (by omega) hjm

/-- C7: for every snapshot stream and every clock whose per-iteration step
lies between `dlt` and `cap`, the poll loop terminates within the fuel bound
`T / dlt + 1`: it exits at the FIRST iteration where full data is ready
(price, plus Greeks for options) or the elapsed time reaches the effective
timeout `T`; the elapsed time at exit is at most `T + cap` (one iteration
interval past the timeout); and the loop returns the quote assembled from
the final snapshot — an `Option.some`, never a timeout error. -/
theorem poll_loop_bounded (env : PollEnv) (s : Session) (T dlt cap : ℚ)
    (fuel : ℕ)
    (h0 : env.elapsed 0 = 0)
    (hdlt : 0 < dlt)
    (hmono : ∀ n, env.elapsed n + dlt ≤ env.elapsed (n + 1))
    (hub : ∀ n, env.elapsed (n + 1) ≤ env.elapsed n + cap)
    (hT : 0 ≤ T)
    (hfuel : T ≤ dlt * fuel) :
    ∃ m, pollLoop env s T (fuel + 1) 0 = some m ∧
      exitAt env s T m = true ∧
      (∀ j, j < m → exitAt env s T j = false) ∧
      env.elapsed m ≤ T + cap ∧
      pollQuote env s T (fuel + 1) = some (mkQuote (env.snap m) s) := by
  have hlow := elapsed_lower_bound env dlt h0 hmono fuel
  have hexit : exitAt env s T fuel = true := by
    have hTe : T ≤ env.elapsed fuel := by
      calc T ≤ dlt * fuel := hfuel
        _ = (fuel : ℚ) * dlt := by ring
        _ ≤ env.elapsed fuel := hlow
    unfold exitAt
    simp [hTe]
  obtain ⟨m, hm, h0m, hmk, hex, hmin⟩ :=
    pollLoop_finds env s T (fuel + 1) 0 fuel (by omega) (by omega) hexit
  have hcap : dlt ≤ cap := by
    have h1 := hmono 0
    have h2 := hub 0
    linarith
  refine ⟨m, hm, hex, fun j hj => hmin j (by omega) hj, ?_, ?_⟩
  · cases m with
    | zero =>
        rw [h0]
        linarith
    | succ j =>
        have hje : exitAt env s T j = false := hmin j (by omega) (by omega)
        have hjT : env.elapsed j < T := by
          unfold exitAt at hje
          simp at hje
          exact hje.2
        have := hub j
        linarith
  · unfold pollQuote
    rw [hm]
    rfl

/-- Witness for C7: a stream that never fills in data, unit clock steps,
timeout 3 — the loop exits on the timeout branch with a blank quote. -/
theorem poll_loop_bounded_witness :
    ∃ m, pollLoop pollEnvW .regular 3 5 0 = some m ∧
      exitAt pollEnvW .regular 3 m = true ∧
      (∀ j, j < m → exitAt pollEnvW .regular 3 j = false) ∧
      pollEnvW.elapsed m ≤ 3 + 1 ∧
      pollQuote pollEnvW .regular 3 5 = some (mkQuote (pollEnvW.snap m) .regular) := by
  exact poll_loop_bounded pollEnvW .regular 3 1 1 4 rfl (by norm_num)
    (fun n => by push_cast [pollEnvW]; norm_num)
    (fun n => by push_cast [pollEnvW]; norm_num)
    (by norm_num) (by norm_num)

/-- C8 counterexample: with a caller-supplied hint of 10 seconds, the
delayed-session effective timeout (the constant 5) is shorter than the
live-session timeout for the same hint, not longer. -/
theorem effective_timeout_not_always_longer :
    effective_timeout .closed 10 = 5 ∧
    effective_timeout .regular 10 = 10 ∧
    ¬ effective_timeout .regular 10 < effective_timeout .closed 10 := by
  norm_num [effective_timeout, Session.isDelayed]

/-- C8 amended: for delayed-data sessions (closed/weekend/holiday) the poll
loop effective timeout is the constant 5 seconds regardless of the caller
hint, and it is strictly longer than the live-session timeout
exactly when the hint is below 5 — in particular at the default hint 2.5
(where it is 2x). -/
theorem effective_timeout_delayed_constant (timeout : ℚ) :
    ∀ (s s' : Session), s.isDelayed = true → s'.isDelayed = false →
      effective_timeout s timeout = 5 ∧
      effective_timeout s' timeout = timeout ∧
      (effective_timeout s' timeout < effective_timeout s timeout ↔
        timeout < 5) := by
  intro s s' hs hs'
  simp [effective_timeout, hs, hs']

/-- Witness for the amended C8 theorem at the default hint `timeout=2.5`. -/
theorem effective_timeout_delayed_constant_witness :
    Session.closed.isDelayed = true ∧ Session.regular.isDelayed = false ∧
    (effective_timeout .closed (5/2) = 5 ∧
      effective_timeout .regular (5/2) = 5/2 ∧
      (effective_timeout .regular (5/2) < effective_timeout .closed (5/2) ↔
        (5/2 : ℚ) < 5)) := by
  refine ⟨rfl, rfl, ?_⟩
  exact effective_timeout_delayed_constant (5/2) .closed .regular rfl rfl

/-- C9 (key-shape mismatch): `subscribe` registers feeds under the 5-tuple
`(symbol, expiry, strike, right, version)` but `cancel` looks up the
4-tuple `(symbol, expiry, strike, right)`, which can never match, so
`cancel` removes nothing and cancels no upstream feed even when the
instrument is live in the registry. -/
theorem cancel_misses_versioned_key :
    lookupKey stC9.tickers (subscribeKey stC9 "AAPL" none none none) =
      some feedAAPL ∧
    cancel stC9 "AAPL" none none none = (stC9, []) ∧
    lookupKey (cancel stC9 "AAPL" none none none).1.tickers
      (subscribeKey stC9 "AAPL" none none none) = some feedAAPL := by
  exact ⟨rfl, rfl, rfl⟩
